import Mathlib

/-!
# News endpoints (`website/server/controllers/api-v4/news.js`)

A shallow embedding of the six route handlers of the news controller and the
properties its specification states about them.

Each handler is a pure function from the request, the `res.locals` it reads and
the persisted state to the new state, the list of store operations it performed
(in order) and either the response it sent or the error it threw.  An awaited
store operation is taken to complete; a throw keeps the state reached so far.

The `NewsPost` model, the user model's `addNotification`, the request validator
and the localisation helpers are imported by the controller from other modules;
their definitions below follow the specification and say so.
-/

namespace News

/-! ## JavaScript values and objects -/

/-- A flat JavaScript value, as carried by a JSON request body field. -/
inductive Value where
  | undefined
  | null
  | bool (b : Bool)
  | num (n : Int)
  | str (s : String)
  deriving DecidableEq, Repr

/-- JavaScript truthiness, the test applied by `if (x)`. -/
def Value.truthy : Value → Bool
  | .undefined => false
  | .null => false
  | .bool b => b
  | .num n => n != 0
  | .str s => s != ""

/-- An object with flat values: its own enumerable properties in order. -/
abbrev Object := List (String × Value)

/-- Property read `o.k`: `undefined` when the object has no such property. -/
def Object.get (o : Object) (k : String) : Value :=
  match o.lookup k with
  | some v => v
  | none => Value.undefined

/-- JavaScript `Array.prototype.findIndex`: index of the first element satisfying `p`, or `-1`. -/
def findIndex {α : Type} (p : α → Bool) : List α → Int
  | [] => -1
  | x :: xs =>
    if p x then 0
    else
      let i := findIndex p xs
      if i = -1 then -1 else i + 1

/-- JavaScript `Array.prototype.splice(start, 1)` for `start ≥ 0`: drops the element at
index `start`, if there is one, and keeps the rest in order. -/
def splice1 {α : Type} (xs : List α) (start : Int) : List α :=
  xs.eraseIdx start.toNat

/-! ## Data model -/

/-- A persisted announcement: store-assigned identifier and the five editable fields. -/
structure NewsPost where
  id : String
  title : Value
  publishDate : Value
  published : Value
  credits : Value
  text : Value
  deriving DecidableEq, Repr

/-- The object literal `postData` built by `createNews` (lines 46-52). -/
structure PostData where
  title : Value
  publishDate : Value
  published : Value
  credits : Value
  text : Value
  deriving DecidableEq, Repr

/-- The persisted posts together with the latest pointer (last news post id and
its publish date). -/
structure Store where
  posts : List NewsPost
  lastNewsPostID : Value
  lastNewsPostDate : Value
  deriving DecidableEq, Repr

/-- One entry of `user.notifications`. -/
structure Notification where
  type : String
  data : Object
  seen : Bool
  deriving DecidableEq, Repr

/-- The `contributor` record of a user. -/
structure Contributor where
  admin : Value
  deriving DecidableEq, Repr

/-- The `flags` record of a user. -/
structure Flags where
  lastNewStuffRead : Value
  deriving DecidableEq, Repr

/-- The part of the user document the controller touches.  An entry of
`notifications` may be `null` (the handler guards with `n && ...`). -/
structure User where
  contributor : Option Contributor
  flags : Flags
  notifications : List (Option Notification)
  deriving DecidableEq, Repr

/-- One error collected by the request validator. -/
structure ValidationError where
  param : String
  msg : String
  deriving DecidableEq, Repr

/-- What a handler can throw. -/
inductive Error where
  | validationFailed (errors : List ValidationError)
  | notFound (message : String)
  deriving DecidableEq, Repr

/-- The request as the handlers read it: path parameters, JSON body and the
validation errors accumulated so far. -/
structure Request where
  params : List (String × String)
  body : Object
  errors : List ValidationError
  deriving DecidableEq, Repr

/-- The empty object `{}` sent by the delete and acknowledgement handlers. -/
structure EmptyObject where
  deriving DecidableEq, Repr

/-- A call `res.respond(status, body)`. -/
structure Response (β : Type) where
  status : Nat
  body : β
  deriving DecidableEq, Repr

/-- A store operation performed by a handler, with its arguments. -/
inductive StoreOp where
  | getNews (isAdmin : Value)
  | findById (id : Option String)
  | save (post : NewsPost)
  | remove (id : Option String)
  | updateLastNewsPostID (id : String) (date : Value)
  | lastNewsPostID
  | saveUser (user : User)
  deriving DecidableEq, Repr

/-- Outcome of a handler working on the news store: the store it leaves, the
store operations it performed in order, and the response sent or error thrown. -/
structure Result (β : Type) where
  store : Store
  trace : List StoreOp
  outcome : Except Error (Response β)

/-- Outcome of a handler working on the requesting user: the user document it
leaves in `res.locals.user`, the store operations performed in order, and the
response sent or error thrown. -/
structure UserResult where
  user : User
  trace : List StoreOp
  outcome : Except Error (Response EmptyObject)

/-! ## Collaborators imported by the controller -/

/-- Modelled from the spec: `apiError` of `libs/apiError` (not part of this file);
the message is identified by its key. -/
def apiError (key : String) : String := key

/-- Modelled from the spec: `req.validationErrors()` of the request-validation
facility; it yields the accumulated errors, or a falsy value when there are none. -/
def Request.validationErrors (req : Request) : Option (List ValidationError) :=
  if req.errors.isEmpty then none else some req.errors

/-- Modelled from the spec: `req.checkParams(name, message).notEmpty()` of the
request-validation facility; it records `message` for the parameter when the
path parameter is missing or empty. -/
def Request.checkParamsNotEmpty (req : Request) (name message : String) : Request :=
  match req.params.lookup name with
  | some v =>
    if v = "" then { req with errors := req.errors ++ [{ param := name, msg := message }] }
    else req
  | none => { req with errors := req.errors ++ [{ param := name, msg := message }] }

/-- Modelled from the spec: the `NewsPost` constructor of `models/newsPost`; it
builds a post from the allow-listed field set under a store-assigned identifier. -/
def NewsPost.new (id : String) (d : PostData) : NewsPost :=
  { id := id, title := d.title, publishDate := d.publishDate, published := d.published,
    credits := d.credits, text := d.text }

/-- Modelled from the spec: `toJSON` of the `NewsPost` model, the full serialized post. -/
def NewsPost.toJSON (p : NewsPost) : NewsPost := p

/-- Modelled from the spec: `NewsPost.findById`, id-based lookup; no id finds nothing. -/
def Store.findById (s : Store) (id : Option String) : Option NewsPost :=
  match id with
  | some i => s.posts.find? (fun p => p.id = i)
  | none => none

/-- Modelled from the spec: `save` of the `NewsPost` model; a post whose id is
already stored replaces the stored one, a new post is added. -/
def Store.save (s : Store) (p : NewsPost) : Store :=
  if s.posts.any (fun q => q.id = p.id) then
    { s with posts := s.posts.map (fun q => if q.id = p.id then p else q) }
  else
    { s with posts := s.posts ++ [p] }

/-- Modelled from the spec: `NewsPost.remove({_id: id}).exec()`, delete-by-id. -/
def Store.remove (s : Store) (id : Option String) : Store :=
  match id with
  | some i => { s with posts := s.posts.filter (fun p => ¬ (p.id = i)) }
  | none => s

/-- Modelled from the spec: `NewsPost.updateLastNewsPostID`, the update of the
latest post id and date. -/
def Store.updateLastNewsPostID (s : Store) (id : String) (date : Value) : Store :=
  { s with lastNewsPostID := Value.str id, lastNewsPostDate := date }

/-- Modelled from the spec: the editable field set of a post, the same as create. -/
def editableFields : List String :=
  ["title", "publishDate", "published", "credits", "text"]

/-- Modelled from the spec: `NewsPost.sanitize`, which restricts raw fields to
the editable field set. -/
def NewsPost.sanitize (raw : Object) : Object :=
  raw.filter (fun kv => kv.1 ∈ editableFields)

/-- One field of `_.merge`: a source value that is `undefined` is skipped. -/
def mergeValue (dst src : Value) : Value :=
  if src = Value.undefined then dst else src

/-- Modelled from the spec: `_.merge(newsPost, fields)` of lodash on the flat
fields of a post; fields of the source are merged one by one onto the record. -/
def merge (p : NewsPost) (src : Object) : NewsPost :=
  { id := p.id,
    title := mergeValue p.title (src.get "title"),
    publishDate := mergeValue p.publishDate (src.get "publishDate"),
    published := mergeValue p.published (src.get "published"),
    credits := mergeValue p.credits (src.get "credits"),
    text := mergeValue p.text (src.get "text") }

/-- Modelled from the spec: `user.addNotification(type, payload, seen)` of the
user model; it appends one notification of the given type, payload and seen flag. -/
def User.addNotification (u : User) (type : String) (data : Object) (seen : Bool) : User :=
  { u with notifications := u.notifications ++ [some { type := type, data := data, seen := seen }] }

/-! ## The controller -/

/-- The constant of line 12. -/
def LAST_ANNOUNCEMENT_TITLE : String :=
  "LAST CHANCE FOR LAVA DRAGON SET AND SPOTLIGHT ON BACK TO SCHOOL"

/-- The admin flag computed by `getNews` (lines 28-32). -/
def isAdminFlag (user : Option User) : Value :=
  match user with
  | some u =>
    match u.contributor with
    | some c => c.admin
    | none => Value.bool false
  | none => Value.bool false

/-- Handler `api.getNews.handler` (lines 27-35).  `fetch` is `NewsPost.getNews`, whose
result has a shape decided by the store. -/
def getNews {κ : Type} (fetch : Store → Value → κ) (user : Option User) (s : Store) : Result κ :=
  let isAdmin := isAdminFlag user
  let results := fetch s isAdmin
  { store := s, trace := [StoreOp.getNews isAdmin],
    outcome := Except.ok { status := 200, body := results } }

/-- Handler `api.createNews.handler` (lines 42-62).  `newId` is the identifier the store
assigns to the new post. -/
def createNews (newId : String) (req : Request) (s : Store) : Result NewsPost :=
  match req.validationErrors with
  | some validationErrors =>
    { store := s, trace := [], outcome := Except.error (Error.validationFailed validationErrors) }
  | none =>
    let postData : PostData :=
      { title := req.body.get "title",
        publishDate := req.body.get "publishDate",
        published := req.body.get "published",
        credits := req.body.get "credits",
        text := req.body.get "text" }
    let newsPost := NewsPost.new newId postData
    let s1 := s.save newsPost
    if newsPost.published.truthy then
      { store := s1.updateLastNewsPostID newsPost.id newsPost.publishDate,
        trace := [StoreOp.save newsPost,
                  StoreOp.updateLastNewsPostID newsPost.id newsPost.publishDate],
        outcome := Except.ok { status := 201, body := newsPost.toJSON } }
    else
      { store := s1, trace := [StoreOp.save newsPost],
        outcome := Except.ok { status := 201, body := newsPost.toJSON } }

/-- Handler `api.updateNews.handler` (lines 89-105).  `t` is `res.t`. -/
def updateNews (t : String → String) (req : Request) (s : Store) : Result NewsPost :=
  let req1 := req.checkParamsNotEmpty "postId" (apiError "postIdRequired")
  match req1.validationErrors with
  | some validationErrors =>
    { store := s, trace := [], outcome := Except.error (Error.validationFailed validationErrors) }
  | none =>
    let postId := req1.params.lookup "postId"
    match s.findById postId with
    | none =>
      { store := s, trace := [StoreOp.findById postId],
        outcome := Except.error (Error.notFound (t "newsPostNotFound")) }
    | some found =>
      let newsPost := merge found (NewsPost.sanitize req1.body)
      let s1 := s.save newsPost
      let savedPost := newsPost
      if newsPost.published.truthy then
        { store := s1.updateLastNewsPostID newsPost.id newsPost.publishDate,
          trace := [StoreOp.findById postId, StoreOp.save newsPost,
                    StoreOp.updateLastNewsPostID newsPost.id newsPost.publishDate],
          outcome := Except.ok { status := 200, body := savedPost.toJSON } }
      else
        { store := s1, trace := [StoreOp.findById postId, StoreOp.save newsPost],
          outcome := Except.ok { status := 200, body := savedPost.toJSON } }

/-- Handler `api.deleteNews.handler` (lines 112-122).  `t` is `res.t`. -/
def deleteNews (t : String → String) (req : Request) (s : Store) : Result EmptyObject :=
  match req.validationErrors with
  | some validationErrors =>
    { store := s, trace := [], outcome := Except.error (Error.validationFailed validationErrors) }
  | none =>
    let postId := req.params.lookup "postId"
    match s.findById postId with
    | none =>
      { store := s, trace := [StoreOp.findById postId],
        outcome := Except.error (Error.notFound (t "newsPostNotFound")) }
    | some _ =>
      { store := s.remove postId,
        trace := [StoreOp.findById postId, StoreOp.remove postId],
        outcome := Except.ok { status := 200, body := {} } }

/-- Handler `api.MarkNewsRead.handler` (lines 138-145).  The user is the one the
authentication middleware put in `res.locals.user`. -/
def MarkNewsRead (user : User) (s : Store) : UserResult :=
  let user1 : User := { user with flags := { user.flags with lastNewStuffRead := s.lastNewsPostID } }
  { user := user1, trace := [StoreOp.lastNewsPostID, StoreOp.saveUser user1],
    outcome := Except.ok { status := 200, body := {} } }

/-- The predicate of line 166-168: `n && n.type === 'NEW_STUFF'`. -/
def isNewStuff (n : Option Notification) : Bool :=
  match n with
  | some x => x.type == "NEW_STUFF"
  | none => false

/-- Handler `api.tellMeLaterNews.handler` (lines 161-174). -/
def tellMeLaterNews (user : User) (s : Store) : UserResult :=
  let user1 : User := { user with flags := { user.flags with lastNewStuffRead := s.lastNewsPostID } }
  let existingNotificationIndex := findIndex isNewStuff user1.notifications
  let user2 : User :=
    if existingNotificationIndex ≠ -1 then
      { user1 with notifications := splice1 user1.notifications existingNotificationIndex }
    else user1
  let user3 := user2.addNotification "NEW_STUFF" [("title", Value.str LAST_ANNOUNCEMENT_TITLE)] true
  { user := user3, trace := [StoreOp.lastNewsPostID, StoreOp.saveUser user3],
    outcome := Except.ok { status := 200, body := {} } }

/-- The user after `n` consecutive calls of `tellMeLaterNews`; call number `i`
(from `0`) runs against the store `σ i`. -/
def tellMeLaterNewsCalls (σ : Nat → Store) : Nat → User → User
  | 0, u => u
  | n + 1, u => (tellMeLaterNews (tellMeLaterNewsCalls σ n u) (σ n)).user

/-! ## Specification-side definitions -/

/-- The notifications of type `NEW_STUFF` in a notification sequence. -/
def newStuffCount (ns : List (Option Notification)) : Nat :=
  ns.countP isNewStuff

/-- The spec's removal contract: the sequence without its first `NEW_STUFF`
notification (single match, linear scan); everything else keeps its order. -/
def removeFirstNewStuff : List (Option Notification) → List (Option Notification)
  | [] => []
  | none :: rest => none :: removeFirstNewStuff rest
  | some n :: rest =>
    if n.type = "NEW_STUFF" then rest else some n :: removeFirstNewStuff rest

/-- The notification the spec has `TellMeLaterNews` append. -/
def announcement : Notification :=
  { type := "NEW_STUFF", data := [("title", Value.str LAST_ANNOUNCEMENT_TITLE)], seen := true }

/-- The errors the `postId` check of `updateNews` adds: one `postIdRequired`
error when the path parameter is missing or empty. -/
def postIdRequiredErrors (req : Request) : List ValidationError :=
  match req.params.lookup "postId" with
  | some v => if v = "" then [{ param := "postId", msg := apiError "postIdRequired" }] else []
  | none => [{ param := "postId", msg := apiError "postIdRequired" }]

/-- The post a create request asks for: the five allow-listed body fields under
the identifier the store assigns. -/
def createdPost (newId : String) (body : Object) : NewsPost :=
  { id := newId, title := body.get "title", publishDate := body.get "publishDate",
    published := body.get "published", credits := body.get "credits", text := body.get "text" }

/-! ## Sample data -/

/-- A store with no post and no latest pointer yet. -/
def emptyStore : Store :=
  { posts := [], lastNewsPostID := Value.undefined, lastNewsPostDate := Value.undefined }

/-- An unseen `NEW_STUFF` notification, as the announcement cron job leaves it. -/
def unseenNewStuff : Notification :=
  { type := "NEW_STUFF", data := [("title", Value.str "OLD NEWS")], seen := false }

/-- A user holding two unseen `NEW_STUFF` notifications. -/
def userTwoNewStuff : User :=
  { contributor := none, flags := { lastNewStuffRead := Value.undefined },
    notifications := [some unseenNewStuff, some unseenNewStuff] }

/-- A user holding a `null` entry, another notification and one unseen `NEW_STUFF`. -/
def userOneNewStuff : User :=
  { contributor := none, flags := { lastNewStuffRead := Value.undefined },
    notifications := [none, some unseenNewStuff,
                      some { type := "CRON", data := [], seen := false }] }

/-- The localisation used in the examples: a message is shown as its key. -/
def tKey : String → String := fun key => key

/-- A create request whose body carries the five fields and two others. -/
def reqCreateExtra : Request :=
  { params := [],
    body := [("_id", Value.str "forged"), ("title", Value.str "A"),
             ("publishDate", Value.str "2024-01-01"), ("published", Value.bool true),
             ("credits", Value.str "x"), ("text", Value.str "y"), ("author", Value.num 7)],
    errors := [] }

/-- A create request whose body carries the five fields only. -/
def reqCreatePlain : Request :=
  { params := [],
    body := [("text", Value.str "y"), ("credits", Value.str "x"),
             ("published", Value.bool true), ("publishDate", Value.str "2024-01-01"),
             ("title", Value.str "A")],
    errors := [] }

/-- A store holding a published and an unpublished post; the pointer names the first. -/
def storeTwoPosts : Store :=
  { posts := [{ id := "p1", title := Value.str "One", publishDate := Value.str "2024-01-01",
                published := Value.bool true, credits := Value.str "c", text := Value.str "t" },
              { id := "p2", title := Value.str "Two", publishDate := Value.str "2024-02-02",
                published := Value.bool false, credits := Value.str "c", text := Value.str "t" }],
    lastNewsPostID := Value.str "p1", lastNewsPostDate := Value.str "2024-01-01" }

/-- A request naming post `p1`, with an empty body. -/
def reqP1 : Request :=
  { params := [("postId", "p1")], body := [], errors := [] }

/-- An update request publishing post `p2` under a new title. -/
def reqPublishP2 : Request :=
  { params := [("postId", "p2")],
    body := [("published", Value.bool true), ("title", Value.str "Two, revised"),
             ("_id", Value.str "forged")],
    errors := [] }

/-- A request naming a post that is not stored. -/
def reqUnknown : Request :=
  { params := [("postId", "unknownId")], body := [("title", Value.str "B")], errors := [] }

/-- A request whose `postId` path parameter is empty. -/
def reqEmptyPostId : Request :=
  { params := [("postId", "")], body := [("title", Value.str "B")], errors := [] }

/-- A create request for a draft: `published` is `false`. -/
def reqCreateDraft : Request :=
  { params := [],
    body := [("title", Value.str "D"), ("publishDate", Value.str "2024-03-03"),
             ("published", Value.bool false), ("credits", Value.str "x"),
             ("text", Value.str "y")],
    errors := [] }

/-- An update request that retitles post `p2` and leaves its `published` flag alone. -/
def reqRetitleP2 : Request :=
  { params := [("postId", "p2")], body := [("title", Value.str "Two, again")], errors := [] }

/-- A request naming a post that is not stored, arriving with one accumulated
validation error. -/
def reqInvalidUnknown : Request :=
  { params := [("postId", "unknownId")], body := [],
    errors := [{ param := "title", msg := "titleRequired" }] }

/-- A request that arrives with one accumulated validation error. -/
def reqInvalid : Request :=
  { params := [("postId", "p1")], body := [("published", Value.bool true)],
    errors := [{ param := "title", msg := "titleRequired" }] }

/-! ## Lemmas on the notification sequence -/

theorem findIndex_eq_or_nonneg {α : Type} (p : α → Bool) (xs : List α) :
    findIndex p xs = -1 ∨ 0 ≤ findIndex p xs := by
  induction xs with
  | nil => left; rfl
  | cons x xs ih =>
    unfold findIndex
    by_cases hp : p x = true
    · right; simp [hp]
    · rcases ih with h | h
      · left; simp [hp, h]
      · right
        have hne : findIndex p xs ≠ -1 := by omega
        simp only [hp, hne, if_false]
        omega

/-- Lines 166-169 compute the spec's single-match removal. -/
theorem splice_findIndex_eq (xs : List (Option Notification)) :
    (if findIndex isNewStuff xs ≠ -1 then splice1 xs (findIndex isNewStuff xs) else xs)
      = removeFirstNewStuff xs := by
  induction xs with
  | nil => simp [findIndex, removeFirstNewStuff]
  | cons x xs ih =>
    rcases findIndex_eq_or_nonneg isNewStuff xs with h | h
    · rw [h] at ih
      simp only [ne_eq, not_true_eq_false, if_false] at ih
      cases x with
      | none => simp [findIndex, isNewStuff, h, removeFirstNewStuff, ← ih]
      | some n =>
        by_cases hn : n.type = "NEW_STUFF"
        · simp [findIndex, isNewStuff, hn, removeFirstNewStuff, splice1]
        · simp [findIndex, isNewStuff, hn, h, removeFirstNewStuff, ← ih]
    · have hne : findIndex isNewStuff xs ≠ -1 := by omega
      have hne1 : findIndex isNewStuff xs + 1 ≠ -1 := by omega
      have htn : (findIndex isNewStuff xs + 1).toNat = (findIndex isNewStuff xs).toNat + 1 := by
        omega
      simp only [hne, ne_eq, not_false_eq_true, if_true] at ih
      cases x with
      | none =>
        simp [findIndex, isNewStuff, hne, hne1, removeFirstNewStuff, splice1, htn, ← ih]
      | some n =>
        by_cases hn : n.type = "NEW_STUFF"
        · simp [findIndex, isNewStuff, hn, removeFirstNewStuff, splice1]
        · simp [findIndex, isNewStuff, hn, hne, hne1, removeFirstNewStuff, splice1, htn, ← ih]

/-- The notification sequence `tellMeLaterNews` leaves. -/
theorem tellMeLaterNews_notifications (user : User) (s : Store) :
    (tellMeLaterNews user s).user.notifications
      = removeFirstNewStuff user.notifications ++ [some announcement] := by
  rw [← splice_findIndex_eq]
  unfold tellMeLaterNews User.addNotification announcement
  by_cases h : findIndex isNewStuff user.notifications = -1
  · simp [h]
  · simp [h]

theorem newStuffCount_removeFirst (xs : List (Option Notification)) :
    newStuffCount (removeFirstNewStuff xs) = newStuffCount xs - 1 := by
  induction xs with
  | nil => rfl
  | cons x xs ih =>
    cases x with
    | none =>
      simp only [newStuffCount] at ih
      simp [removeFirstNewStuff, newStuffCount, List.countP_cons, isNewStuff, ih]
    | some n =>
      simp only [newStuffCount] at ih
      by_cases hn : n.type = "NEW_STUFF"
      · simp [removeFirstNewStuff, newStuffCount, List.countP_cons, isNewStuff, hn]
      · simp [removeFirstNewStuff, newStuffCount, List.countP_cons, isNewStuff, hn, ih]

theorem newStuffCount_tellMeLaterNews (user : User) (s : Store) :
    newStuffCount (tellMeLaterNews user s).user.notifications
      = max 1 (newStuffCount user.notifications) := by
  rw [tellMeLaterNews_notifications]
  have h := newStuffCount_removeFirst user.notifications
  simp only [newStuffCount] at h
  simp only [newStuffCount, List.countP_append, h]
  simp [List.countP_cons, isNewStuff, announcement]
  omega

/-- A sequence without `NEW_STUFF` notifications satisfies every statement about them. -/
theorem no_newStuff_of_count_zero (xs : List (Option Notification))
    (h : newStuffCount xs = 0) (x : Notification) (hx : some x ∈ xs) :
    x.type ≠ "NEW_STUFF" := by
  intro ht
  have h0 := List.countP_eq_zero.mp h (some x) hx
  simp [isNewStuff, ht] at h0

/-- Starting from at most one `NEW_STUFF` notification, one call leaves exactly
one, the announcement, which is seen. -/
theorem seen_after_tellMeLaterNews (user : User) (s : Store)
    (h : newStuffCount user.notifications ≤ 1) (x : Notification)
    (hx : some x ∈ (tellMeLaterNews user s).user.notifications)
    (ht : x.type = "NEW_STUFF") : x.seen = true := by
  rw [tellMeLaterNews_notifications] at hx
  rcases List.mem_append.mp hx with hm | hm
  · have hz : newStuffCount (removeFirstNewStuff user.notifications) = 0 := by
      rw [newStuffCount_removeFirst]; omega
    exact absurd ht (no_newStuff_of_count_zero _ hz x hm)
  · simp at hm
    rw [hm]; rfl

theorem newStuffCount_calls (σ : Nat → Store) (n : Nat) (user : User) :
    newStuffCount (tellMeLaterNewsCalls σ (n + 1) user).notifications
      = max 1 (newStuffCount user.notifications) := by
  induction n with
  | zero => simp [tellMeLaterNewsCalls, newStuffCount_tellMeLaterNews]
  | succ k ih =>
    rw [tellMeLaterNewsCalls, newStuffCount_tellMeLaterNews, ih]
    omega

/-- The spec-side removal leaves a sequence without a match as it is. -/
theorem removeFirstNewStuff_of_none (xs : List (Option Notification))
    (h : ∀ x ∈ xs, isNewStuff x = false) : removeFirstNewStuff xs = xs := by
  induction xs with
  | nil => rfl
  | cons x xs ih =>
    have hx := h x (List.mem_cons_self _ _)
    have ih1 := ih (fun y hy => h y (List.mem_cons_of_mem _ hy))
    cases x with
    | none => simp [removeFirstNewStuff, ih1]
    | some n =>
      have hn : ¬ n.type = "NEW_STUFF" := by simpa [isNewStuff] using hx
      simp [removeFirstNewStuff, hn, ih1]

/-- The spec-side removal drops the first match and nothing else. -/
theorem removeFirstNewStuff_of_first (pre post : List (Option Notification))
    (n : Notification) (hpre : ∀ x ∈ pre, isNewStuff x = false) (hn : n.type = "NEW_STUFF") :
    removeFirstNewStuff (pre ++ some n :: post) = pre ++ post := by
  induction pre with
  | nil => simp [removeFirstNewStuff, hn]
  | cons x xs ih =>
    have hx := hpre x (List.mem_cons_self _ _)
    have ih1 := ih (fun y hy => hpre y (List.mem_cons_of_mem _ hy))
    cases x with
    | none => simp [removeFirstNewStuff, ih1]
    | some m =>
      have hm : ¬ m.type = "NEW_STUFF" := by simpa [isNewStuff] using hx
      simp [removeFirstNewStuff, hm, ih1]

/-! ## The acknowledgement handlers -/

/-- C1, as stated, fails: a user who already holds two `NEW_STUFF` notifications
still holds two after one call of `tellMeLaterNews`, since a call removes a
single match. -/
theorem tellMeLaterNews_two_remain :
    ¬ (newStuffCount
        (tellMeLaterNewsCalls (fun _ => emptyStore) 1 userTwoNewStuff).notifications ≤ 1) := by
  rw [newStuffCount_calls]
  decide

/-- C1, amended: for every user whose notification sequence holds at most one
`NEW_STUFF` notification and every `n ≥ 1`, after `n` consecutive calls of
`tellMeLaterNews` the sequence holds exactly one `NEW_STUFF` notification, and
every `NEW_STUFF` notification in it is marked as seen. -/
theorem tellMeLaterNews_calls_one_seen (σ : Nat → Store) (user : User) (n : Nat)
    (hn : 1 ≤ n) (h : newStuffCount user.notifications ≤ 1) :
    newStuffCount (tellMeLaterNewsCalls σ n user).notifications = 1 ∧
    ∀ x : Notification, some x ∈ (tellMeLaterNewsCalls σ n user).notifications →
      x.type = "NEW_STUFF" → x.seen = true := by
  obtain ⟨k, rfl⟩ : ∃ k, n = k + 1 := ⟨n - 1, by omega⟩
  constructor
  · rw [newStuffCount_calls]; omega
  · intro x hx ht
    have hk : newStuffCount (tellMeLaterNewsCalls σ k user).notifications ≤ 1 := by
      cases k with
      | zero => simpa [tellMeLaterNewsCalls] using h
      | succ j => rw [newStuffCount_calls]; omega
    exact seen_after_tellMeLaterNews (tellMeLaterNewsCalls σ k user) (σ k) hk x hx ht

/-- C1, amended, at three calls for a user holding one unseen `NEW_STUFF`. -/
theorem tellMeLaterNews_calls_one_seen_witness :
    1 ≤ 3 ∧ newStuffCount userOneNewStuff.notifications ≤ 1 ∧
    (newStuffCount (tellMeLaterNewsCalls (fun _ => emptyStore) 3 userOneNewStuff).notifications = 1 ∧
      ∀ x : Notification,
        some x ∈ (tellMeLaterNewsCalls (fun _ => emptyStore) 3 userOneNewStuff).notifications →
        x.type = "NEW_STUFF" → x.seen = true) :=
  ⟨by decide, by decide,
    tellMeLaterNews_calls_one_seen (fun _ => emptyStore) userOneNewStuff 3 (by decide) (by decide)⟩

/-- C7: `tellMeLaterNews` preserves the invariant "at most one notification of
type `NEW_STUFF`": when the sequence holds at most one before the call, it holds
exactly one after it. -/
theorem tellMeLaterNews_preserves_invariant (user : User) (s : Store)
    (h : newStuffCount user.notifications ≤ 1) :
    newStuffCount (tellMeLaterNews user s).user.notifications = 1 := by
  rw [newStuffCount_tellMeLaterNews]; omega

/-- C7 at a user holding one `NEW_STUFF` notification. -/
theorem tellMeLaterNews_preserves_invariant_witness :
    newStuffCount userOneNewStuff.notifications ≤ 1 ∧
    newStuffCount (tellMeLaterNews userOneNewStuff emptyStore).user.notifications = 1 :=
  ⟨by decide, tellMeLaterNews_preserves_invariant userOneNewStuff emptyStore (by decide)⟩

/-- C8: after `tellMeLaterNews` the notification sequence is the previous one
without its first `NEW_STUFF` notification, followed by one new `NEW_STUFF`
notification carrying the fixed announcement title and marked as seen; and
`flags.lastNewStuffRead` is the latest-pointer id, the value `MarkNewsRead` sets. -/
theorem tellMeLaterNews_effect (user : User) (s : Store) :
    (tellMeLaterNews user s).user.notifications
      = removeFirstNewStuff user.notifications
        ++ [some { type := "NEW_STUFF",
                   data := [("title", Value.str LAST_ANNOUNCEMENT_TITLE)],
                   seen := true }] ∧
    (tellMeLaterNews user s).user.flags.lastNewStuffRead = s.lastNewsPostID ∧
    (tellMeLaterNews user s).user.flags.lastNewStuffRead
      = (MarkNewsRead user s).user.flags.lastNewStuffRead ∧
    (tellMeLaterNews user s).user.contributor = user.contributor ∧
    (tellMeLaterNews user s).trace
      = [StoreOp.lastNewsPostID, StoreOp.saveUser (tellMeLaterNews user s).user] ∧
    (tellMeLaterNews user s).outcome = Except.ok { status := 200, body := {} } := by
  refine ⟨tellMeLaterNews_notifications user s, ?_, ?_, ?_, rfl, rfl⟩
  · unfold tellMeLaterNews User.addNotification
    by_cases h : findIndex isNewStuff user.notifications = -1 <;> simp [h]
  · unfold tellMeLaterNews MarkNewsRead User.addNotification
    by_cases h : findIndex isNewStuff user.notifications = -1 <;> simp [h]
  · unfold tellMeLaterNews User.addNotification
    by_cases h : findIndex isNewStuff user.notifications = -1 <;> simp [h]

/-- C5: `MarkNewsRead` sets `flags.lastNewStuffRead` to the latest-pointer id and
changes nothing else of the user, persists that user, responds 200 with an empty
object, and a second call against the same store leaves the same user. -/
theorem MarkNewsRead_effect (user : User) (s : Store) :
    (MarkNewsRead user s).user.flags.lastNewStuffRead = s.lastNewsPostID ∧
    (MarkNewsRead user s).user.contributor = user.contributor ∧
    (MarkNewsRead user s).user.notifications = user.notifications ∧
    (MarkNewsRead user s).trace
      = [StoreOp.lastNewsPostID, StoreOp.saveUser (MarkNewsRead user s).user] ∧
    (MarkNewsRead user s).outcome = Except.ok { status := 200, body := {} } ∧
    (MarkNewsRead (MarkNewsRead user s).user s).user = (MarkNewsRead user s).user :=
  ⟨rfl, rfl, rfl, rfl, rfl, rfl⟩

/-! ## Reading the news -/

/-- C10: `getNews` works with or without a user, performs the single store read
with the admin flag it computed and responds 200 with what the store returned;
the flag is `true` only for a present user with a contributor record whose
`admin` is `true`, and `false` for an anonymous request and for a user without
a contributor record. -/
theorem getNews_effect {κ : Type} (fetch : Store → Value → κ) (user : Option User) (s : Store) :
    (getNews fetch user s).outcome
      = Except.ok { status := 200, body := fetch s (isAdminFlag user) } ∧
    (getNews fetch user s).trace = [StoreOp.getNews (isAdminFlag user)] ∧
    (getNews fetch user s).store = s ∧
    (isAdminFlag user = Value.bool true →
      ∃ u c, user = some u ∧ u.contributor = some c ∧ c.admin = Value.bool true) ∧
    (user = none → isAdminFlag user = Value.bool false) ∧
    (∀ u, user = some u → u.contributor = none → isAdminFlag user = Value.bool false) := by
  refine ⟨rfl, rfl, rfl, ?_, ?_, ?_⟩
  · intro h
    cases user with
    | none => simp [isAdminFlag] at h
    | some u =>
      cases hc : u.contributor with
      | none => simp [isAdminFlag, hc] at h
      | some c => exact ⟨u, c, rfl, hc, by simpa [isAdminFlag, hc] using h⟩
  · intro h; subst h; rfl
  · intro u hu hc; subst hu; simp [isAdminFlag, hc]

/-! ## Lemmas on the validator and the store -/

theorem validationErrors_of_nil (req : Request) (h : req.errors = []) :
    req.validationErrors = none := by
  simp [Request.validationErrors, h]

theorem validationErrors_of_ne_nil (req : Request) (h : req.errors ≠ []) :
    req.validationErrors = some req.errors := by
  simp [Request.validationErrors, h]

theorem checkParamsNotEmpty_errors (req : Request) :
    (req.checkParamsNotEmpty "postId" (apiError "postIdRequired")).errors
      = req.errors ++ postIdRequiredErrors req := by
  unfold Request.checkParamsNotEmpty postIdRequiredErrors
  cases h : req.params.lookup "postId" with
  | none => simp
  | some v => by_cases hv : v = "" <;> simp [hv]

theorem checkParamsNotEmpty_params (req : Request) (name message : String) :
    (req.checkParamsNotEmpty name message).params = req.params := by
  unfold Request.checkParamsNotEmpty
  cases h : req.params.lookup name with
  | none => simp
  | some v => by_cases hv : v = "" <;> simp [hv]

theorem checkParamsNotEmpty_body (req : Request) (name message : String) :
    (req.checkParamsNotEmpty name message).body = req.body := by
  unfold Request.checkParamsNotEmpty
  cases h : req.params.lookup name with
  | none => simp
  | some v => by_cases hv : v = "" <;> simp [hv]

/-- A request with no accumulated error and a non-empty `postId` passes the
guard of `updateNews`. -/
theorem checkParamsNotEmpty_passes (req : Request) (postId : String)
    (he : req.errors = []) (hp : req.params.lookup "postId" = some postId)
    (hne : postId ≠ "") :
    (req.checkParamsNotEmpty "postId" (apiError "postIdRequired")).validationErrors = none := by
  apply validationErrors_of_nil
  rw [checkParamsNotEmpty_errors, he]
  simp [postIdRequiredErrors, hp, hne]

theorem find_map_replace (posts : List NewsPost) (p : NewsPost)
    (h : posts.any (fun q => q.id = p.id) = true) :
    (posts.map (fun q => if q.id = p.id then p else q)).find? (fun q => q.id = p.id) = some p := by
  induction posts with
  | nil => simp at h
  | cons q qs ih =>
    by_cases hq : q.id = p.id
    · simp [hq]
    · have h1 : qs.any (fun q => q.id = p.id) = true := by simpa [hq] using h
      simp [hq, ih h1]

theorem find_append_new (posts : List NewsPost) (p : NewsPost)
    (h : ¬ posts.any (fun q => q.id = p.id) = true) :
    (posts ++ [p]).find? (fun q => q.id = p.id) = some p := by
  induction posts with
  | nil => simp
  | cons q qs ih =>
    have hq : ¬ q.id = p.id := by
      intro hq; apply h; simp [hq]
    have h1 : ¬ qs.any (fun q => q.id = p.id) = true := by
      intro h1; apply h; simp [List.any_cons, h1]
    simp [hq, ih h1]

/-- A saved post is the one find-by-id returns for its id. -/
theorem findById_save (s : Store) (p : NewsPost) :
    (s.save p).findById (some p.id) = some p := by
  unfold Store.save Store.findById
  by_cases h : s.posts.any (fun q => q.id = p.id) = true
  · simp only [h, if_true]
    exact find_map_replace s.posts p h
  · simp only [h, if_false]
    exact find_append_new s.posts p h

/-- Saving a post does not move the latest pointer. -/
theorem save_pointer (s : Store) (p : NewsPost) :
    (s.save p).lastNewsPostID = s.lastNewsPostID ∧
    (s.save p).lastNewsPostDate = s.lastNewsPostDate := by
  unfold Store.save
  by_cases h : s.posts.any (fun q => q.id = p.id) = true <;> simp [h]

theorem find_filter_ne (posts : List NewsPost) (i j : String) :
    (posts.filter (fun p => ¬ (p.id = i))).find? (fun p => p.id = j)
      = if j = i then none else posts.find? (fun p => p.id = j) := by
  induction posts with
  | nil => simp
  | cons q qs ih =>
    by_cases hq : q.id = i
    · have h1 : (decide (¬ q.id = i)) = false := by simp [hq]
      rw [List.filter_cons, h1, if_neg (by simp), ih]
      by_cases hji : j = i
      · simp [hji]
      · have hqj : ¬ q.id = j := by rw [hq]; exact fun h => hji h.symm
        simp only [hji, if_false, List.find?_cons]
        simp [hqj]
    · have h1 : (decide (¬ q.id = i)) = true := by simp [hq]
      rw [List.filter_cons, h1, if_pos rfl, List.find?_cons, List.find?_cons, ih]
      by_cases hqj : q.id = j
      · have hji : ¬ j = i := by rw [← hqj]; exact hq
        simp [hqj, hji]
      · simp [hqj]

/-- What `createNews` does once the guard passes (lines 46-61). -/
theorem createNews_of_valid (newId : String) (req : Request) (s : Store)
    (h : req.errors = []) :
    createNews newId req s =
      if (createdPost newId req.body).published.truthy then
        { store := (s.save (createdPost newId req.body)).updateLastNewsPostID newId
              (req.body.get "publishDate"),
          trace := [StoreOp.save (createdPost newId req.body),
            StoreOp.updateLastNewsPostID newId (req.body.get "publishDate")],
          outcome := Except.ok { status := 201, body := createdPost newId req.body } }
      else
        { store := s.save (createdPost newId req.body),
          trace := [StoreOp.save (createdPost newId req.body)],
          outcome := Except.ok { status := 201, body := createdPost newId req.body } } := by
  unfold createNews
  rw [validationErrors_of_nil req h]
  rfl

/-- A store with an updated pointer finds the same posts. -/
theorem findById_updateLastNewsPostID (s : Store) (id : String) (date : Value)
    (i : Option String) :
    (s.updateLastNewsPostID id date).findById i = s.findById i := by
  cases i <;> rfl

/-- The post find-by-id returns carries the id asked for. -/
theorem findById_id (s : Store) (postId : String) (found : NewsPost)
    (h : s.findById (some postId) = some found) : found.id = postId := by
  unfold Store.findById at h
  have := List.find?_some h
  simpa using this

/-- What `updateNews` does once the guard passes and the post exists (lines 97-104). -/
theorem updateNews_of_found (t : String → String) (req : Request) (s : Store)
    (postId : String) (found : NewsPost)
    (he : req.errors = []) (hp : req.params.lookup "postId" = some postId)
    (hne : postId ≠ "") (hf : s.findById (some postId) = some found) :
    updateNews t req s =
      if (merge found (NewsPost.sanitize req.body)).published.truthy then
        { store := (s.save (merge found (NewsPost.sanitize req.body))).updateLastNewsPostID
              (merge found (NewsPost.sanitize req.body)).id
              (merge found (NewsPost.sanitize req.body)).publishDate,
          trace := [StoreOp.findById (some postId),
            StoreOp.save (merge found (NewsPost.sanitize req.body)),
            StoreOp.updateLastNewsPostID (merge found (NewsPost.sanitize req.body)).id
              (merge found (NewsPost.sanitize req.body)).publishDate],
          outcome := Except.ok { status := 200, body := merge found (NewsPost.sanitize req.body) } }
      else
        { store := s.save (merge found (NewsPost.sanitize req.body)),
          trace := [StoreOp.findById (some postId),
            StoreOp.save (merge found (NewsPost.sanitize req.body))],
          outcome := Except.ok { status := 200, body := merge found (NewsPost.sanitize req.body) } } := by
  unfold updateNews
  simp only [checkParamsNotEmpty_passes req postId he hp hne, checkParamsNotEmpty_params,
    checkParamsNotEmpty_body, hp, hf]
  rfl

/-- What `deleteNews` does once the guard passes and the post exists (lines 119-121). -/
theorem deleteNews_of_found (t : String → String) (req : Request) (s : Store)
    (found : NewsPost) (he : req.errors = [])
    (hf : s.findById (req.params.lookup "postId") = some found) :
    deleteNews t req s =
      { store := s.remove (req.params.lookup "postId"),
        trace := [StoreOp.findById (req.params.lookup "postId"),
                  StoreOp.remove (req.params.lookup "postId")],
        outcome := Except.ok { status := 200, body := {} } } := by
  unfold deleteNews
  simp only [validationErrors_of_nil req he, hf]

/-! ## The admin handlers -/

/-- C2: on a request that passes the guard, whatever the store holds,
`createNews` sets the latest pointer to the new post's id and publish date when
the saved post's `published` flag holds (the test `if (newsPost.published)`) and
leaves the pointer as it was otherwise; `updateNews` on an existing post does the
same according to the flag of the post after the sanitized body has been merged
into it. -/
theorem latest_pointer_follows_published (newId : String) (t : String → String) (s : Store)
    (reqC reqU : Request) (postId : String) (found : NewsPost) :
    (reqC.errors = [] →
      ∃ post : NewsPost,
        (createNews newId reqC s).outcome = Except.ok { status := 201, body := post } ∧
        post.id = newId ∧
        post.published = reqC.body.get "published" ∧
        post.publishDate = reqC.body.get "publishDate" ∧
        (createNews newId reqC s).store.findById (some post.id) = some post ∧
        (post.published.truthy = true →
          (createNews newId reqC s).store.lastNewsPostID = Value.str post.id ∧
          (createNews newId reqC s).store.lastNewsPostDate = post.publishDate) ∧
        (post.published.truthy = false →
          (createNews newId reqC s).store.lastNewsPostID = s.lastNewsPostID ∧
          (createNews newId reqC s).store.lastNewsPostDate = s.lastNewsPostDate)) ∧
    (reqU.errors = [] → reqU.params.lookup "postId" = some postId → postId ≠ "" →
      s.findById (some postId) = some found →
      ∃ post : NewsPost,
        post = merge found (NewsPost.sanitize reqU.body) ∧
        (updateNews t reqU s).outcome = Except.ok { status := 200, body := post } ∧
        post.id = postId ∧
        (updateNews t reqU s).store.findById (some post.id) = some post ∧
        (post.published.truthy = true →
          (updateNews t reqU s).store.lastNewsPostID = Value.str post.id ∧
          (updateNews t reqU s).store.lastNewsPostDate = post.publishDate) ∧
        (post.published.truthy = false →
          (updateNews t reqU s).store.lastNewsPostID = s.lastNewsPostID ∧
          (updateNews t reqU s).store.lastNewsPostDate = s.lastNewsPostDate)) := by
  constructor
  · intro hC
    refine ⟨createdPost newId reqC.body, ?_⟩
    rw [createNews_of_valid newId reqC s hC]
    have hsave := findById_save s (createdPost newId reqC.body)
    have hptr := save_pointer s (createdPost newId reqC.body)
    by_cases hpub : (createdPost newId reqC.body).published.truthy = true
    · rw [if_pos hpub]
      refine ⟨rfl, rfl, rfl, rfl, ?_, fun _ => ⟨rfl, rfl⟩, fun h => ?_⟩
      · rw [findById_updateLastNewsPostID]; exact hsave
      · rw [hpub] at h; cases h
    · rw [if_neg hpub]
      refine ⟨rfl, rfl, rfl, rfl, hsave, fun h => absurd h hpub, fun _ => hptr⟩
  · intro hU hp hne hf
    refine ⟨merge found (NewsPost.sanitize reqU.body), rfl, ?_⟩
    rw [updateNews_of_found t reqU s postId found hU hp hne hf]
    have hsave := findById_save s (merge found (NewsPost.sanitize reqU.body))
    have hptr := save_pointer s (merge found (NewsPost.sanitize reqU.body))
    have hid : (merge found (NewsPost.sanitize reqU.body)).id = postId :=
      findById_id s postId found hf
    by_cases hpub : (merge found (NewsPost.sanitize reqU.body)).published.truthy = true
    · rw [if_pos hpub]
      refine ⟨rfl, hid, ?_, fun _ => ⟨rfl, rfl⟩, fun h => ?_⟩
      · rw [findById_updateLastNewsPostID]; exact hsave
      · rw [hpub] at h; cases h
    · rw [if_neg hpub]
      refine ⟨rfl, hid, hsave, fun h => absurd h hpub, fun _ => hptr⟩

/-- C2 at four requests: creating a published post in a store without posts
moves the pointer to it; creating a draft leaves the pointer on `p1`; an update
that publishes `p2` moves the pointer to `p2`; an update that only retitles the
unpublished `p2` leaves the pointer on `p1`. -/
theorem latest_pointer_follows_published_witness :
    (reqCreateExtra.errors = [] ∧ reqCreateDraft.errors = [] ∧
      reqPublishP2.errors = [] ∧ reqRetitleP2.errors = [] ∧
      reqPublishP2.params.lookup "postId" = some "p2" ∧
      reqRetitleP2.params.lookup "postId" = some "p2" ∧ "p2" ≠ "") ∧
    ((createNews "p3" reqCreateExtra emptyStore).store.lastNewsPostID = Value.str "p3" ∧
      (createNews "p3" reqCreateExtra emptyStore).store.lastNewsPostDate
        = Value.str "2024-01-01") ∧
    ((createNews "p4" reqCreateDraft storeTwoPosts).store.lastNewsPostID = Value.str "p1" ∧
      (createNews "p4" reqCreateDraft storeTwoPosts).store.lastNewsPostDate
        = Value.str "2024-01-01") ∧
    ((updateNews tKey reqPublishP2 storeTwoPosts).store.lastNewsPostID = Value.str "p2" ∧
      (updateNews tKey reqPublishP2 storeTwoPosts).store.lastNewsPostDate
        = Value.str "2024-02-02") ∧
    ((updateNews tKey reqRetitleP2 storeTwoPosts).store.lastNewsPostID = Value.str "p1" ∧
      (updateNews tKey reqRetitleP2 storeTwoPosts).store.lastNewsPostDate
        = Value.str "2024-01-01") := by
  obtain ⟨post, _, hid, hpub, hdate, _, hset, _⟩ :=
    (latest_pointer_follows_published "p3" tKey emptyStore reqCreateExtra reqP1 "p1"
      (createdPost "p3" [])).1 (by decide)
  obtain ⟨draft, _, _, hpubD, _, _, _, hkeep⟩ :=
    (latest_pointer_follows_published "p4" tKey storeTwoPosts reqCreateDraft reqP1 "p1"
      (createdPost "p4" [])).1 (by decide)
  obtain ⟨post2, hm2, _, hid2, _, hset2, _⟩ :=
    (latest_pointer_follows_published "p3" tKey storeTwoPosts reqCreateExtra reqPublishP2 "p2"
      { id := "p2", title := Value.str "Two", publishDate := Value.str "2024-02-02",
        published := Value.bool false, credits := Value.str "c", text := Value.str "t" }).2
      (by decide) (by decide) (by decide) (by decide)
  obtain ⟨post3, hm3, _, _, _, _, hkeep3⟩ :=
    (latest_pointer_follows_published "p3" tKey storeTwoPosts reqCreateExtra reqRetitleP2 "p2"
      { id := "p2", title := Value.str "Two", publishDate := Value.str "2024-02-02",
        published := Value.bool false, credits := Value.str "c", text := Value.str "t" }).2
      (by decide) (by decide) (by decide) (by decide)
  have h1 := hset (by rw [hpub]; decide)
  rw [hid, hdate] at h1
  have h2 := hkeep (by rw [hpubD]; decide)
  have h3 := hset2 (by rw [hm2]; decide)
  rw [hid2, hm2] at h3
  have h4 := hkeep3 (by rw [hm3]; decide)
  exact ⟨by decide, h1, h2, h3, h4⟩

/-- C3, as stated, fails: find-by-id has no post for the empty `postId`, and
`updateNews` fails with the `postIdRequired` validation error of its guard, not
with `NotFound`; and `deleteNews`, on a request that names an id without a post
and arrives with an accumulated validation error, fails with that error, not
with `NotFound`. -/
theorem updateNews_empty_postId_not_notFound :
    (storeTwoPosts.findById (some "") = none ∧
      (updateNews tKey reqEmptyPostId storeTwoPosts).outcome
        = Except.error (Error.validationFailed [{ param := "postId", msg := "postIdRequired" }]) ∧
      ¬ ∃ m, (updateNews tKey reqEmptyPostId storeTwoPosts).outcome
        = Except.error (Error.notFound m)) ∧
    (storeTwoPosts.findById (some "unknownId") = none ∧
      (deleteNews tKey reqInvalidUnknown storeTwoPosts).outcome
        = Except.error (Error.validationFailed [{ param := "title", msg := "titleRequired" }]) ∧
      ¬ ∃ m, (deleteNews tKey reqInvalidUnknown storeTwoPosts).outcome
        = Except.error (Error.notFound m)) := by
  have hu : (updateNews tKey reqEmptyPostId storeTwoPosts).outcome
      = Except.error (Error.validationFailed [{ param := "postId", msg := "postIdRequired" }]) := by
    rfl
  have hd : (deleteNews tKey reqInvalidUnknown storeTwoPosts).outcome
      = Except.error (Error.validationFailed [{ param := "title", msg := "titleRequired" }]) := by
    rfl
  refine ⟨⟨by decide, hu, ?_⟩, ⟨by decide, hd, ?_⟩⟩
  · rintro ⟨m, hm⟩
    rw [hu] at hm
    cases hm
  · rintro ⟨m, hm⟩
    rw [hd] at hm
    cases hm

/-- C3, amended: for every store and every request whose `postId` has no post,
`updateNews` and `deleteNews` each fail and perform no persistence side effect:
the store (posts and latest pointer) is unchanged, the only store operation that
can occur is the lookup, so nothing is saved or removed, and no response is
sent; the error is `NotFound` when the request passes the handler's validation
guard, that is, when it carries no accumulated validation errors and, for
`updateNews`, its `postId` is present and not empty. -/
theorem notFound_no_side_effect (t : String → String) (s : Store) (reqU reqD : Request)
    (hfU : s.findById (reqU.params.lookup "postId") = none)
    (hfD : s.findById (reqD.params.lookup "postId") = none) :
    ((updateNews t reqU s).store = s ∧
      (∃ e, (updateNews t reqU s).outcome = Except.error e) ∧
      (∀ op ∈ (updateNews t reqU s).trace,
        op = StoreOp.findById (reqU.params.lookup "postId")) ∧
      (reqU.errors = [] →
        ∀ postId : String, reqU.params.lookup "postId" = some postId → postId ≠ "" →
          (updateNews t reqU s).outcome = Except.error (Error.notFound (t "newsPostNotFound")) ∧
          (updateNews t reqU s).trace = [StoreOp.findById (some postId)])) ∧
    ((deleteNews t reqD s).store = s ∧
      (∃ e, (deleteNews t reqD s).outcome = Except.error e) ∧
      (∀ op ∈ (deleteNews t reqD s).trace,
        op = StoreOp.findById (reqD.params.lookup "postId")) ∧
      (reqD.errors = [] →
        (deleteNews t reqD s).outcome = Except.error (Error.notFound (t "newsPostNotFound")) ∧
        (deleteNews t reqD s).trace = [StoreOp.findById (reqD.params.lookup "postId")])) := by
  constructor
  · have hgen : (updateNews t reqU s).store = s ∧
        (∃ e, (updateNews t reqU s).outcome = Except.error e) ∧
        (∀ op ∈ (updateNews t reqU s).trace,
          op = StoreOp.findById (reqU.params.lookup "postId")) := by
      unfold updateNews
      cases hv : (reqU.checkParamsNotEmpty "postId" (apiError "postIdRequired")).validationErrors with
      | some errs => simp only [hv]; simp
      | none => simp only [hv, checkParamsNotEmpty_params, hfU]; simp
    refine ⟨hgen.1, hgen.2.1, hgen.2.2, ?_⟩
    intro heU postId hp hne
    have hfU1 : s.findById (some postId) = none := by rw [← hp]; exact hfU
    unfold updateNews
    simp only [checkParamsNotEmpty_passes reqU postId heU hp hne, checkParamsNotEmpty_params,
      hp, hfU1, and_self]
  · have hgen : (deleteNews t reqD s).store = s ∧
        (∃ e, (deleteNews t reqD s).outcome = Except.error e) ∧
        (∀ op ∈ (deleteNews t reqD s).trace,
          op = StoreOp.findById (reqD.params.lookup "postId")) := by
      unfold deleteNews
      cases hv : reqD.validationErrors with
      | some errs => simp only [hv]; simp
      | none => simp only [hv, hfD]; simp
    refine ⟨hgen.1, hgen.2.1, hgen.2.2, ?_⟩
    intro heD
    unfold deleteNews
    simp only [validationErrors_of_nil reqD heD, hfD, and_self]

/-- C3, amended, at a request naming an id that is not stored (both handlers
fail with `NotFound` after the lookup alone) and at the update with the empty
`postId` (the store is unchanged and no store operation occurs). -/
theorem notFound_no_side_effect_witness :
    (storeTwoPosts.findById (reqUnknown.params.lookup "postId") = none ∧
      storeTwoPosts.findById (reqEmptyPostId.params.lookup "postId") = none ∧
      reqUnknown.errors = [] ∧ reqUnknown.params.lookup "postId" = some "unknownId" ∧
      "unknownId" ≠ "") ∧
    ((updateNews tKey reqUnknown storeTwoPosts).outcome
        = Except.error (Error.notFound (tKey "newsPostNotFound")) ∧
      (updateNews tKey reqUnknown storeTwoPosts).trace = [StoreOp.findById (some "unknownId")]) ∧
    (updateNews tKey reqUnknown storeTwoPosts).store = storeTwoPosts ∧
    ((deleteNews tKey reqUnknown storeTwoPosts).outcome
        = Except.error (Error.notFound (tKey "newsPostNotFound")) ∧
      (deleteNews tKey reqUnknown storeTwoPosts).trace
        = [StoreOp.findById (reqUnknown.params.lookup "postId")]) ∧
    (deleteNews tKey reqUnknown storeTwoPosts).store = storeTwoPosts ∧
    (updateNews tKey reqEmptyPostId storeTwoPosts).store = storeTwoPosts ∧
    (∃ e, (updateNews tKey reqEmptyPostId storeTwoPosts).outcome = Except.error e) := by
  have h := notFound_no_side_effect tKey storeTwoPosts reqUnknown reqUnknown
    (by decide) (by decide)
  have h0 := notFound_no_side_effect tKey storeTwoPosts reqEmptyPostId reqUnknown
    (by decide) (by decide)
  exact ⟨by decide, h.1.2.2.2 (by decide) "unknownId" (by decide) (by decide), h.1.1,
    h.2.2.2.2 (by decide), h.2.1, h0.1.1, h0.1.2.1⟩

/-- C4: on a valid create request, the post `createNews` saves and returns with
status 201 carries exactly the body's `title`, `publishDate`, `published`,
`credits` and `text` under the store-assigned id; two valid requests whose bodies
agree on these five fields give the same store, the same store operations and
the same response, whatever else the bodies carry. -/
theorem createNews_allow_list (newId : String) (s : Store) (req1 req2 : Request)
    (h1 : req1.errors = []) (h2 : req2.errors = [])
    (hagree : ∀ k ∈ ["title", "publishDate", "published", "credits", "text"],
      req1.body.get k = req2.body.get k) :
    (createNews newId req1 s).outcome
      = Except.ok { status := 201,
                    body := { id := newId, title := req1.body.get "title",
                              publishDate := req1.body.get "publishDate",
                              published := req1.body.get "published",
                              credits := req1.body.get "credits",
                              text := req1.body.get "text" } } ∧
    (createNews newId req1 s).store.findById (some newId)
      = some { id := newId, title := req1.body.get "title",
               publishDate := req1.body.get "publishDate",
               published := req1.body.get "published",
               credits := req1.body.get "credits",
               text := req1.body.get "text" } ∧
    (createNews newId req1 s).store = (createNews newId req2 s).store ∧
    (createNews newId req1 s).trace = (createNews newId req2 s).trace ∧
    (createNews newId req1 s).outcome = (createNews newId req2 s).outcome := by
  have hpost : createdPost newId req1.body = createdPost newId req2.body := by
    unfold createdPost
    rw [hagree "title" (by simp), hagree "publishDate" (by simp),
      hagree "published" (by simp), hagree "credits" (by simp), hagree "text" (by simp)]
  have hdate : req1.body.get "publishDate" = req2.body.get "publishDate" :=
    hagree "publishDate" (by simp)
  have hsave := findById_save s (createdPost newId req1.body)
  rw [createNews_of_valid newId req1 s h1, createNews_of_valid newId req2 s h2,
    ← hpost, ← hdate]
  by_cases hpub : (createdPost newId req1.body).published.truthy = true
  · rw [if_pos hpub]
    refine ⟨rfl, ?_, rfl, rfl, rfl⟩
    rw [findById_updateLastNewsPostID]; exact hsave
  · rw [if_neg hpub]
    exact ⟨rfl, hsave, rfl, rfl, rfl⟩

/-- C4 at two bodies that agree on the five fields; one also carries `_id` and `author`. -/
theorem createNews_allow_list_witness :
    reqCreateExtra.errors = [] ∧ reqCreatePlain.errors = [] ∧
    (∀ k ∈ ["title", "publishDate", "published", "credits", "text"],
      reqCreateExtra.body.get k = reqCreatePlain.body.get k) ∧
    (createNews "p3" reqCreateExtra storeTwoPosts).outcome
      = Except.ok { status := 201,
                    body := { id := "p3", title := Value.str "A",
                              publishDate := Value.str "2024-01-01",
                              published := Value.bool true,
                              credits := Value.str "x", text := Value.str "y" } } ∧
    (createNews "p3" reqCreateExtra storeTwoPosts).outcome
      = (createNews "p3" reqCreatePlain storeTwoPosts).outcome := by
  have h := createNews_allow_list "p3" storeTwoPosts reqCreateExtra reqCreatePlain
    (by decide) (by decide) (by decide)
  exact ⟨by decide, by decide, by decide, h.1, h.2.2.2.2⟩

/-- C6: for every store and every `postId` of an existing post, `deleteNews` (on
a request that reaches it without accumulated validation errors, the guard of
lines 113-114) responds 200 with an empty object and removes that post, so that
find-by-id of the same `postId` then returns nothing; every other post stays as
it was, in place, and the latest pointer (id and date) is unchanged, whether or
not it names the deleted post. -/
theorem deleteNews_removes_post (t : String → String) (req : Request) (s : Store)
    (postId : String) (found : NewsPost)
    (he : req.errors = []) (hp : req.params.lookup "postId" = some postId)
    (hf : s.findById (some postId) = some found) :
    (deleteNews t req s).outcome = Except.ok { status := 200, body := {} } ∧
    (deleteNews t req s).store.findById (some postId) = none ∧
    (∀ other : String, other ≠ postId →
      (deleteNews t req s).store.findById (some other) = s.findById (some other)) ∧
    (deleteNews t req s).store.posts = s.posts.filter (fun p => ¬ (p.id = postId)) ∧
    (deleteNews t req s).store.lastNewsPostID = s.lastNewsPostID ∧
    (deleteNews t req s).store.lastNewsPostDate = s.lastNewsPostDate ∧
    (deleteNews t req s).trace
      = [StoreOp.findById (some postId), StoreOp.remove (some postId)] := by
  rw [deleteNews_of_found t req s found he (by rw [hp]; exact hf), hp]
  refine ⟨rfl, ?_, ?_, rfl, rfl, rfl, rfl⟩
  · show ((s.posts.filter (fun p => ¬ (p.id = postId))).find? (fun p => p.id = postId)) = none
    rw [find_filter_ne]; simp
  · intro other ho
    show ((s.posts.filter (fun p => ¬ (p.id = postId))).find? (fun p => p.id = other))
      = s.posts.find? (fun p => p.id = other)
    rw [find_filter_ne]; simp [ho]

/-- C6 at the deletion of post `p1`, the post the latest pointer names. -/
theorem deleteNews_removes_post_witness :
    reqP1.errors = [] ∧ reqP1.params.lookup "postId" = some "p1" ∧
    storeTwoPosts.lastNewsPostID = Value.str "p1" ∧
    (deleteNews tKey reqP1 storeTwoPosts).store.findById (some "p1") = none ∧
    (deleteNews tKey reqP1 storeTwoPosts).store.lastNewsPostID = Value.str "p1" ∧
    (deleteNews tKey reqP1 storeTwoPosts).store.lastNewsPostDate = Value.str "2024-01-01" := by
  have h := deleteNews_removes_post tKey reqP1 storeTwoPosts "p1"
    { id := "p1", title := Value.str "One", publishDate := Value.str "2024-01-01",
      published := Value.bool true, credits := Value.str "c", text := Value.str "t" }
    (by decide) (by decide) (by decide)
  exact ⟨by decide, by decide, by decide, h.2.1, h.2.2.2.2.1, h.2.2.2.2.2.1⟩

/-- C9: when the validation errors a handler's guard reads are not empty (for
`updateNews` they are the accumulated ones followed by `postIdRequired` if the
`postId` path parameter is missing or empty), `createNews`, `updateNews` and
`deleteNews` fail with exactly those errors, leave the store (posts and latest
pointer) as it was, perform no store operation and send no response. -/
theorem validation_errors_thrown_first (newId : String) (t : String → String) (s : Store)
    (reqC reqU reqD : Request)
    (hC : reqC.errors ≠ [])
    (hU : (reqU.checkParamsNotEmpty "postId" (apiError "postIdRequired")).errors ≠ [])
    (hD : reqD.errors ≠ []) :
    ((createNews newId reqC s).outcome = Except.error (Error.validationFailed reqC.errors) ∧
      (createNews newId reqC s).store = s ∧ (createNews newId reqC s).trace = []) ∧
    ((updateNews t reqU s).outcome
        = Except.error (Error.validationFailed
            (reqU.checkParamsNotEmpty "postId" (apiError "postIdRequired")).errors) ∧
      (updateNews t reqU s).store = s ∧ (updateNews t reqU s).trace = []) ∧
    ((deleteNews t reqD s).outcome = Except.error (Error.validationFailed reqD.errors) ∧
      (deleteNews t reqD s).store = s ∧ (deleteNews t reqD s).trace = []) ∧
    (reqU.checkParamsNotEmpty "postId" (apiError "postIdRequired")).errors
      = reqU.errors ++ postIdRequiredErrors reqU ∧
    ((reqU.params.lookup "postId" = none ∨ reqU.params.lookup "postId" = some "") →
      postIdRequiredErrors reqU = [{ param := "postId", msg := apiError "postIdRequired" }]) := by
  refine ⟨?_, ?_, ?_, checkParamsNotEmpty_errors reqU, ?_⟩
  · unfold createNews
    simp only [validationErrors_of_ne_nil reqC hC, and_self]
  · unfold updateNews
    simp only [validationErrors_of_ne_nil _ hU, and_self]
  · unfold deleteNews
    simp only [validationErrors_of_ne_nil reqD hD, and_self]
  · intro h
    unfold postIdRequiredErrors
    rcases h with h | h <;> simp [h]

/-- C9 at a request with one accumulated error, and at an update without
accumulated errors whose `postId` is empty. -/
theorem validation_errors_thrown_first_witness :
    reqInvalid.errors ≠ [] ∧
    (reqEmptyPostId.checkParamsNotEmpty "postId" (apiError "postIdRequired")).errors ≠ [] ∧
    (createNews "p3" reqInvalid storeTwoPosts).outcome
      = Except.error (Error.validationFailed [{ param := "title", msg := "titleRequired" }]) ∧
    (updateNews tKey reqEmptyPostId storeTwoPosts).outcome
      = Except.error (Error.validationFailed [{ param := "postId", msg := "postIdRequired" }]) ∧
    (updateNews tKey reqEmptyPostId storeTwoPosts).trace = [] ∧
    (deleteNews tKey reqInvalid storeTwoPosts).store = storeTwoPosts := by
  have h := validation_errors_thrown_first "p3" tKey storeTwoPosts reqInvalid reqEmptyPostId
    reqInvalid (by decide) (by decide) (by decide)
  exact ⟨by decide, by decide, h.1.1, h.2.1.1, h.2.1.2.2, h.2.2.1.2.1⟩

end News
